import Mathlib

/-!
Verification of the `amu_hdc1080` HDC1080 temperature/humidity driver
(`src/amu_hdc1080.py`) against its natural-language specification.

The driver is embedded shallowly:

* Python floats become `ℚ`.  Every arithmetic step the driver performs
  (`raw / 2**16 * 165 - 40` and `raw / 2**16 * 100` with `|raw| ≤ 2^15`)
  is exact in IEEE double precision, because the divisor is a power of
  two and the products stay far below `2^53`; hence the rational model
  computes exactly the values the Python code computes.
* The I2C bus becomes an oracle `I2CBus` giving, for each selected
  register, the byte stream that `i2c.readinto` would store.
* Every externally visible action of an operation (bus writes, bus
  reads, `time.sleep` calls, and the configuration-register descriptor
  writes performed through the adafruit register library) is recorded in
  an event trace, so ordering and delay claims are statements about
  traces.
* The class-level scratch buffer `HDC1080._BUFFER = bytearray(5)` is a
  single `List Nat` threaded through the operations.  It is class-level
  in the source (one object shared by all instances), so the model has
  exactly one buffer, not one buffer per instance.
* `raise RuntimeError(...)` becomes `Except.error`; the two failure
  messages of the source are distinguished by the constructors of
  `DriverError`.
-/

namespace AmuHdc1080

/-- Register addresses of the HDC1080 (source constants `_REG_TEMP`,
`_REG_HUMI`, `_REG_CONF`, `_REG_DEID`). -/
def REG_TEMP : Nat := 0x00

def REG_HUMI : Nat := 0x01

def REG_CONF : Nat := 0x02

def REG_DEID : Nat := 0xFF

/-- Source constant `_HDC1080_DEVICE_ID = const(0x1050)`. -/
def HDC1080_DEVICE_ID : Nat := 0x1050

/-- Source constant `_HDC1080_I2CADDR_DEFAULT = const(0x40)`. -/
def HDC1080_I2CADDR_DEFAULT : Nat := 0x40

/-- Source constant `READ_BOTH_VALUES = const(0x01)` (a Python int). -/
def READ_BOTH_VALUES : Int := 0x01

/-- Source constant `READ_SINGLE_VALUE = const(0x00)` (a Python int). -/
def READ_SINGLE_VALUE : Int := 0x00

/-- Source `_convert_to_celsius`: `(raw_value / (2 ** 16)) * 165 - 40`,
on exact rationals (the Python float computation is exact here). -/
def convert_to_celsius (raw_value : Int) : ℚ :=
  (raw_value : ℚ) / 2 ^ 16 * 165 - 40

/-- Source `_convert_to_relative_humidity`: `(raw_value / (2 ** 16)) * 100`. -/
def convert_to_relative_humidity (raw_value : Int) : ℚ :=
  (raw_value : ℚ) / 2 ^ 16 * 100

/-- `struct.unpack_from('>h', ...)`: two bytes as a big-endian signed
16-bit integer (two's complement). -/
def unpackBEInt16 (b0 b1 : Nat) : Int :=
  let u : Nat := (b0 % 256) * 256 + b1 % 256
  if u < 32768 then (u : Int) else (u : Int) - 65536

/-- The I2C bus oracle: `respByte r i` is the `i`-th byte the device
delivers to `i2c.readinto` after register `r` was selected (the ID
register `0xFF` is read the same way by the adafruit register library). -/
structure I2CBus where
  respByte : Nat → Nat → Nat

/-- The byte stream actually stored by `i2c.readinto` for register
`register`, truncated to bytes (`% 256`): indices `0, …, n-1`. -/
def busBytes (bus : I2CBus) (register : Nat) : Nat → List Nat
  | 0 => []
  | n + 1 => busBytes bus register n ++ [bus.respByte register n % 256]

/-- `i2c.readinto(self._BUFFER, start, ...)`: store a byte list into the
buffer starting at index `start` (out-of-range indices are dropped,
matching a fixed-size `bytearray`). -/
def writeInto (buf : List Nat) (start : Nat) : List Nat → List Nat
  | [] => buf
  | b :: rest => writeInto (buf.set start b) (start + 1) rest

/-- The errors the driver raises (`raise RuntimeError(...)` in the
source): `deviceNotFound` is the construction-time failure
`Failed to find a HDC1080 on I2C bus!`, `wrongMode` the read-time
failure `Wrong mode, use ...`. -/
inductive DriverError where
  | deviceNotFound
  | wrongMode
  deriving DecidableEq

/-- Externally visible actions of the driver, in the order performed.
`busWrite`/`busRead` are raw transfers through `_BUFFER`;
`sleepMs d` is `time.sleep` of `d` milliseconds; the four `write…`
events are the configuration-descriptor assignments of `__init__`
(`_software_reset`, `_temp_resolution`, `_humidity_resolution`,
`_operation_mode`), each a write to config register `0x02` performed by
the adafruit register library. -/
inductive Event where
  | busWrite (bytes : List Nat)
  | busRead (bytes : List Nat)
  | sleepMs (ms : ℚ)
  | writeSoftwareReset (value : Nat)
  | writeTempResolution (value : Nat)
  | writeHumidityResolution (value : Nat)
  | writeOperationMode (value : Int)
  deriving DecidableEq

/-- Is this event a write to the configuration register (reset bit or
any of the three configuration fields)? -/
def Event.isConfigWrite : Event → Bool
  | .writeSoftwareReset _ => true
  | .writeTempResolution _ => true
  | .writeHumidityResolution _ => true
  | .writeOperationMode _ => true
  | _ => false

/-- Is this event a raw register-select write on the bus? -/
def Event.isBusWrite : Event → Bool
  | .busWrite _ => true
  | _ => false

instance {ε α : Type} [DecidableEq ε] [DecidableEq α] :
    DecidableEq (Except ε α) := fun a b =>
  match a, b with
  | .ok x, .ok y =>
      if h : x = y then isTrue (by rw [h]) else isFalse (by simp [h])
  | .error x, .error y =>
      if h : x = y then isTrue (by rw [h]) else isFalse (by simp [h])
  | .ok _, .error _ => isFalse (by simp)
  | .error _, .ok _ => isFalse (by simp)

/-- Result of running a driver operation: the returned value or raised
error, the state of the (class-level, shared) scratch buffer afterwards,
and the trace of externally visible events.  An operation that raises
before touching the bus has an empty trace. -/
structure Outcome (α : Type) where
  result : Except DriverError α
  buffer : List Nat
  events : List Event
  deriving DecidableEq

/-- A constructed driver instance: the i2c address and the stored
`mode` (a Python int, stored unchecked by `__init__`). -/
structure HDC1080 where
  address : Nat
  mode : Int
  deriving DecidableEq

/-- `self._device_id`, a `ROUnaryStruct(_REG_DEID, ">H")`: the two bytes
of register `0xFF` decoded as a big-endian unsigned 16-bit value. -/
def deviceId (bus : I2CBus) : Nat :=
  (bus.respByte REG_DEID 0 % 256) * 256 + bus.respByte REG_DEID 1 % 256

/-- `HDC1080._read_from_register(register, '>h')`: stage the register
byte in `_BUFFER[0]`, write 1 byte, `time.sleep(0.0635)` (63.5 ms),
read 2 bytes into `_BUFFER[1:3]`, and unpack a big-endian signed short
at buffer offset 1.  Returns (raw value, buffer after, events). -/
def read_from_register (bus : I2CBus) (buf : List Nat) (register : Nat) :
    Int × List Nat × List Event :=
  let buf1 := buf.set 0 (register % 256)
  let data := busBytes bus register 2
  let buf2 := writeInto buf1 1 data
  (unpackBEInt16 (buf2.getD 1 0) (buf2.getD 2 0), buf2,
    [Event.busWrite [register % 256], Event.sleepMs (127 / 2),
      Event.busRead data])

/-- `HDC1080._read_from_registers(register, '>h')`: stage the register
byte, write 1 byte, `time.sleep(0.0635)` (63.5 ms), read into
`_BUFFER[1:]` (`len(_BUFFER) - 1` bytes), and unpack big-endian signed
shorts at buffer offsets 1 and 3. -/
def read_from_registers (bus : I2CBus) (buf : List Nat) (register : Nat) :
    (Int × Int) × List Nat × List Event :=
  let buf1 := buf.set 0 (register % 256)
  let data := busBytes bus register (buf.length - 1)
  let buf2 := writeInto buf1 1 data
  ((unpackBEInt16 (buf2.getD 1 0) (buf2.getD 2 0),
      unpackBEInt16 (buf2.getD 3 0) (buf2.getD 4 0)), buf2,
    [Event.busWrite [register % 256], Event.sleepMs (127 / 2),
      Event.busRead data])

/-- `HDC1080.__init__(i2c, address, mode)`: store the handle and `mode`,
read the device id (raising if it is not `0x1050`), set the software
reset bit, `time.sleep(0.015)` (15 ms), then write the three
configuration fields (temperature resolution `0x00`, humidity
resolution `0x00`, operation mode `mode`).  `buf` is the class-level
scratch buffer, untouched by construction (the register library uses
its own buffers). -/
def HDC1080.init (bus : I2CBus) (buf : List Nat) (address : Nat)
    (mode : Int) : Outcome HDC1080 :=
  let idData := busBytes bus REG_DEID 2
  let idEvents := [Event.busWrite [REG_DEID], Event.busRead idData]
  if deviceId bus ≠ HDC1080_DEVICE_ID then
    ⟨Except.error DriverError.deviceNotFound, buf, idEvents⟩
  else
    ⟨Except.ok ⟨address, mode⟩, buf,
      idEvents ++
        [Event.writeSoftwareReset 0x1, Event.sleepMs 15,
          Event.writeTempResolution 0x00,
          Event.writeHumidityResolution 0x00,
          Event.writeOperationMode mode]⟩

/-- Property `HDC1080.temperature`: raise on `mode == READ_BOTH_VALUES`,
else read register `0x00` and convert to Celsius. -/
def HDC1080.temperature (self : HDC1080) (bus : I2CBus) (buf : List Nat) :
    Outcome ℚ :=
  if self.mode = READ_BOTH_VALUES then
    ⟨Except.error DriverError.wrongMode, buf, []⟩
  else
    let r := read_from_register bus buf REG_TEMP
    ⟨Except.ok (convert_to_celsius r.1), r.2.1, r.2.2⟩

/-- Property `HDC1080.humidity`: raise on `mode == READ_BOTH_VALUES`,
else read register `0x01` and convert to relative humidity. -/
def HDC1080.humidity (self : HDC1080) (bus : I2CBus) (buf : List Nat) :
    Outcome ℚ :=
  if self.mode = READ_BOTH_VALUES then
    ⟨Except.error DriverError.wrongMode, buf, []⟩
  else
    let r := read_from_register bus buf REG_HUMI
    ⟨Except.ok (convert_to_relative_humidity r.1), r.2.1, r.2.2⟩

/-- `HDC1080.temperature_and_humidity()`: raise on
`mode == READ_SINGLE_VALUE`, else read both values starting at register
`0x00` in one transaction and convert each. -/
def HDC1080.temperature_and_humidity (self : HDC1080) (bus : I2CBus)
    (buf : List Nat) : Outcome (ℚ × ℚ) :=
  if self.mode = READ_SINGLE_VALUE then
    ⟨Except.error DriverError.wrongMode, buf, []⟩
  else
    let r := read_from_registers bus buf REG_TEMP
    ⟨Except.ok (convert_to_celsius r.1.1,
        convert_to_relative_humidity r.1.2), r.2.1, r.2.2⟩

/-- A fresh scratch buffer, `bytearray(5)` (all zero). -/
def zeroBuf : List Nat := [0, 0, 0, 0, 0]

/-- A mock bus whose every response byte is zero (device id reads 0x0000). -/
def busAllZero : I2CBus := ⟨fun _ _ => 0⟩

/-- A mock bus that answers the device-ID register with `0x10 0x50`
(id `0x1050`) and every data register with `0x12` bytes. -/
def busGoodId : I2CBus :=
  ⟨fun r i => if r = REG_DEID then (if i = 0 then 0x10 else 0x50) else 0x12⟩

/-- A mock bus whose combined read of register `0x00` delivers the bytes
`0x00 0x00` (temperature channel) then `0xFF 0xFF` (humidity channel). -/
def busCombinedSample : I2CBus :=
  ⟨fun r i => if r = REG_TEMP then [0x00, 0x00, 0xFF, 0xFF].getD i 0 else 0⟩

/-- A mock bus delivering the fixed byte pattern `0x12 0x34 0x56 0x78`
for every register. -/
def busPattern : I2CBus := ⟨fun _ i => [0x12, 0x34, 0x56, 0x78].getD i 0⟩

-- Theorems about the embedded driver follow.

/-- Claim C4: with stored mode `READ_BOTH_VALUES`, `temperature` and
`humidity` fail with the wrong-mode error and perform no bus transfer
(empty event trace); with stored mode `READ_SINGLE_VALUE`,
`temperature_and_humidity` fails likewise with no bus transfer. -/
theorem wrong_mode_raises_without_bus_transfer (inst : HDC1080)
    (bus : I2CBus) (buf : List Nat) :
    (inst.mode = READ_BOTH_VALUES →
      (inst.temperature bus buf).result
          = Except.error DriverError.wrongMode ∧
        (inst.temperature bus buf).events = [] ∧
        (inst.humidity bus buf).result
          = Except.error DriverError.wrongMode ∧
        (inst.humidity bus buf).events = []) ∧
      (inst.mode = READ_SINGLE_VALUE →
        (inst.temperature_and_humidity bus buf).result
            = Except.error DriverError.wrongMode ∧
          (inst.temperature_and_humidity bus buf).events = []) := by
  constructor
  · intro h
    simp [HDC1080.temperature, HDC1080.humidity, h]
  · intro h
    simp [HDC1080.temperature_and_humidity, h]

/-- Witness for C4: concrete combined-mode and single-mode instances. -/
theorem wrong_mode_raises_without_bus_transfer_witness :
    (((HDC1080.mk 0x40 READ_BOTH_VALUES).temperature busAllZero
          zeroBuf).result = Except.error DriverError.wrongMode ∧
      ((HDC1080.mk 0x40 READ_BOTH_VALUES).temperature busAllZero
          zeroBuf).events = [] ∧
      ((HDC1080.mk 0x40 READ_BOTH_VALUES).humidity busAllZero
          zeroBuf).result = Except.error DriverError.wrongMode ∧
      ((HDC1080.mk 0x40 READ_BOTH_VALUES).humidity busAllZero
          zeroBuf).events = []) ∧
      ((HDC1080.mk 0x40 READ_SINGLE_VALUE).temperature_and_humidity
          busAllZero zeroBuf).result = Except.error DriverError.wrongMode ∧
      ((HDC1080.mk 0x40 READ_SINGLE_VALUE).temperature_and_humidity
          busAllZero zeroBuf).events = [] :=
  ⟨(wrong_mode_raises_without_bus_transfer ⟨0x40, READ_BOTH_VALUES⟩
      busAllZero zeroBuf).1 rfl,
    (wrong_mode_raises_without_bus_transfer ⟨0x40, READ_SINGLE_VALUE⟩
      busAllZero zeroBuf).2 rfl⟩

/-- Claim C5: construction decodes register `0xFF` as a big-endian
unsigned 16-bit value (`deviceId`) and, for every value other than
`0x1050`, fails with the device-not-found error; no driver handle is
produced and the trace holds only the ID read — in particular no reset
or configuration write was issued. -/
theorem init_device_id_mismatch_fails_before_config (bus : I2CBus)
    (buf : List Nat) (address : Nat) (mode : Int)
    (h : deviceId bus ≠ HDC1080_DEVICE_ID) :
    (HDC1080.init bus buf address mode).result
        = Except.error DriverError.deviceNotFound ∧
      (HDC1080.init bus buf address mode).events
        = [Event.busWrite [REG_DEID],
            Event.busRead (busBytes bus REG_DEID 2)] ∧
      ∀ e ∈ (HDC1080.init bus buf address mode).events,
        e.isConfigWrite = false := by
  refine ⟨?_, ?_, ?_⟩ <;>
    simp [HDC1080.init, h, Event.isConfigWrite]

/-- Witness for C5: a bus whose ID register reads `0x0000`. -/
theorem init_device_id_mismatch_fails_before_config_witness :
    (HDC1080.init busAllZero zeroBuf 0x40 0).result
      = Except.error DriverError.deviceNotFound :=
  (init_device_id_mismatch_fails_before_config busAllZero zeroBuf 0x40 0
    (by decide)).1

/-- Claim C6: on a matching device id, construction performs, in order,
the ID check, the software-reset write, a 15 ms sleep (≥ 15 ms), and
only then the configuration writes: temperature resolution `0`,
humidity resolution `00`, operation mode = the requested mode. -/
theorem init_reset_then_delay_then_config (bus : I2CBus) (buf : List Nat)
    (address : Nat) (mode : Int)
    (h : deviceId bus = HDC1080_DEVICE_ID) :
    (HDC1080.init bus buf address mode).result
        = Except.ok ⟨address, mode⟩ ∧
      (HDC1080.init bus buf address mode).events
        = [Event.busWrite [REG_DEID],
            Event.busRead (busBytes bus REG_DEID 2),
            Event.writeSoftwareReset 0x1, Event.sleepMs 15,
            Event.writeTempResolution 0x00,
            Event.writeHumidityResolution 0x00,
            Event.writeOperationMode mode] ∧
      (15 : ℚ) ≥ 15 := by
  refine ⟨?_, ?_, le_refl _⟩ <;> simp [HDC1080.init, h]

/-- Witness for C6: a bus whose ID register reads `0x1050`. -/
theorem init_reset_then_delay_then_config_witness :
    (HDC1080.init busGoodId zeroBuf 0x40 0).result
      = Except.ok ⟨0x40, 0⟩ :=
  (init_reset_then_delay_then_config busGoodId zeroBuf 0x40 0
    (by decide)).1

/-- Claim C1 counterexample: in combined mode, with raw bytes
`0x00 0x00` (temperature) and `0xFF 0xFF` (humidity), the driver does
NOT return `(-40.0, ≈100.0)`: the `'>h'` unpack is signed, so
`0xFFFF` becomes raw `-1` and the humidity value is
`-25/16384 ≈ -0.0015`, which is negative, not close to 100. -/
theorem combined_roundtrip_spec_value_refuted :
    ((HDC1080.mk HDC1080_I2CADDR_DEFAULT
          READ_BOTH_VALUES).temperature_and_humidity busCombinedSample
        zeroBuf).result
      = Except.ok ((-40 : ℚ), (-(25 / 16384) : ℚ)) ∧
    (-(25 / 16384) : ℚ) < 0 := by
  constructor
  · simp [HDC1080.temperature_and_humidity, read_from_registers, busBytes,
      writeInto, zeroBuf, REG_TEMP, busCombinedSample, unpackBEInt16,
      convert_to_celsius, convert_to_relative_humidity,
      READ_BOTH_VALUES, READ_SINGLE_VALUE]
    norm_num
  · norm_num

/-- Claim C1 as amended: in combined mode, on raw bytes `0x00 0x00` for
temperature and `0xFF 0xFF` for humidity, `temperature_and_humidity`
returns `(-40.0, -25/16384)` (≈ `(-40.0, -0.0015)`), because both
channels are unpacked as big-endian signed shorts, mapping `0xFFFF`
to `-1`. -/
theorem combined_roundtrip_signed_unpack (inst : HDC1080)
    (buf : List Nat) (h : inst.mode ≠ READ_SINGLE_VALUE)
    (hlen : buf.length = 5) :
    (inst.temperature_and_humidity busCombinedSample buf).result
      = Except.ok ((-40 : ℚ), (-(25 / 16384) : ℚ)) := by
  rcases buf with _ | ⟨b0, _ | ⟨b1, _ | ⟨b2, _ | ⟨b3, _ | ⟨b4, rest⟩⟩⟩⟩⟩ <;>
    simp at hlen
  subst hlen
  simp [HDC1080.temperature_and_humidity, read_from_registers, busBytes,
    writeInto, h, REG_TEMP, busCombinedSample, unpackBEInt16,
    convert_to_celsius, convert_to_relative_humidity]
  norm_num

/-- Witness for the amended C1: a concrete combined-mode instance and a
fresh buffer. -/
theorem combined_roundtrip_signed_unpack_witness :
    ((HDC1080.mk 0x40 READ_BOTH_VALUES).temperature_and_humidity
        busCombinedSample zeroBuf).result
      = Except.ok ((-40 : ℚ), (-(25 / 16384) : ℚ)) :=
  combined_roundtrip_signed_unpack ⟨0x40, READ_BOTH_VALUES⟩ zeroBuf
    (by decide) rfl

/-- Claim C9 counterexample: the scratch buffer is the class-level
`_BUFFER`, one object shared by all instances (modelled as the single
threaded buffer); two distinct instances exist such that a read on the
first changes the shared buffer — i.e. the buffer the second instance
stages its transfers in — from its prior value. -/
theorem scratch_buffer_not_instance_owned :
    HDC1080.mk 0x40 READ_SINGLE_VALUE ≠ HDC1080.mk 0x41 READ_SINGLE_VALUE ∧
    ((HDC1080.mk 0x40 READ_SINGLE_VALUE).temperature busPattern
        zeroBuf).buffer ≠ zeroBuf := by
  constructor <;> decide

/-- Claim C9 as amended: the scratch buffer is a class-level attribute
shared by every instance of the driver, and a read operation on any one
instance mutates it (whenever the byte the bus delivers differs from
the buffer content it overwrites), so the buffer every other instance
uses does not stay unchanged. -/
theorem scratch_buffer_shared_mutation (a : HDC1080) (bus : I2CBus)
    (buf : List Nat) (h : a.mode ≠ READ_BOTH_VALUES)
    (hlen : buf.length = 5)
    (hb : bus.respByte REG_TEMP 0 % 256 ≠ buf.getD 1 0) :
    (a.temperature bus buf).buffer ≠ buf := by
  rcases buf with _ | ⟨b0, _ | ⟨b1, _ | ⟨b2, _ | ⟨b3, _ | ⟨b4, rest⟩⟩⟩⟩⟩ <;>
    simp at hlen
  subst hlen
  simp at hb
  intro heq
  have hbuf : (a.temperature bus [b0, b1, b2, b3, b4]).buffer
      = [REG_TEMP % 256, bus.respByte REG_TEMP 0 % 256,
          bus.respByte REG_TEMP 1 % 256, b3, b4] := by
    simp [HDC1080.temperature, read_from_register, busBytes, writeInto, h]
  rw [hbuf] at heq
  injection heq with h0 htl
  injection htl with h1 _
  exact hb h1

/-- Witness for the amended C9: a single-value-mode instance reading on
the pattern bus changes the shared buffer from all zeroes. -/
theorem scratch_buffer_shared_mutation_witness :
    ((HDC1080.mk 0x41 READ_SINGLE_VALUE).temperature busPattern
        zeroBuf).buffer ≠ zeroBuf :=
  scratch_buffer_shared_mutation ⟨0x41, READ_SINGLE_VALUE⟩ busPattern
    zeroBuf (by decide) rfl (by decide)

/-- Claim C7: every read operation that reaches the bus produces the
trace write – sleep – read, with a sleep of `127/2` ms (63.5 ms, from
`time.sleep(0.0635)`), which is at least `127/20` ms (6.35 ms). -/
theorem reads_wait_between_write_and_read (inst : HDC1080) (bus : I2CBus)
    (buf : List Nat) :
    (inst.mode ≠ READ_BOTH_VALUES →
      (inst.temperature bus buf).events
          = [Event.busWrite [REG_TEMP], Event.sleepMs (127 / 2),
              Event.busRead (busBytes bus REG_TEMP 2)] ∧
        (inst.humidity bus buf).events
          = [Event.busWrite [REG_HUMI], Event.sleepMs (127 / 2),
              Event.busRead (busBytes bus REG_HUMI 2)]) ∧
      (inst.mode ≠ READ_SINGLE_VALUE →
        (inst.temperature_and_humidity bus buf).events
          = [Event.busWrite [REG_TEMP], Event.sleepMs (127 / 2),
              Event.busRead (busBytes bus REG_TEMP (buf.length - 1))]) ∧
      (127 / 2 : ℚ) ≥ 127 / 20 := by
  refine ⟨fun h => ?_, fun h => ?_, by norm_num⟩
  · constructor <;>
      simp [HDC1080.temperature, HDC1080.humidity, read_from_register, h,
        REG_TEMP, REG_HUMI]
  · simp [HDC1080.temperature_and_humidity, read_from_registers, h,
      REG_TEMP]

/-- Witness for C7: a mode-2 instance reaches the bus in all three
operations, each with the write – 63.5 ms sleep – read trace. -/
theorem reads_wait_between_write_and_read_witness :
    (((HDC1080.mk 0x40 2).temperature busAllZero zeroBuf).events
        = [Event.busWrite [REG_TEMP], Event.sleepMs (127 / 2),
            Event.busRead (busBytes busAllZero REG_TEMP 2)] ∧
      ((HDC1080.mk 0x40 2).humidity busAllZero zeroBuf).events
        = [Event.busWrite [REG_HUMI], Event.sleepMs (127 / 2),
            Event.busRead (busBytes busAllZero REG_HUMI 2)]) ∧
      ((HDC1080.mk 0x40 2).temperature_and_humidity busAllZero
          zeroBuf).events
        = [Event.busWrite [REG_TEMP], Event.sleepMs (127 / 2),
            Event.busRead (busBytes busAllZero REG_TEMP
              (zeroBuf.length - 1))] :=
  ⟨(reads_wait_between_write_and_read ⟨0x40, 2⟩ busAllZero zeroBuf).1
      (by decide),
    (reads_wait_between_write_and_read ⟨0x40, 2⟩ busAllZero zeroBuf).2.1
      (by decide)⟩

/-- Claim C8: on a 5-byte buffer, `temperature_and_humidity` performs
exactly one register-select write (of `0x00`), reads 4 bytes in one
transfer, and converts the big-endian signed shorts at data offsets 0
and 2 with the temperature resp. humidity formula. -/
theorem combined_read_single_write_and_unpack (inst : HDC1080)
    (bus : I2CBus) (buf : List Nat) (h : inst.mode ≠ READ_SINGLE_VALUE)
    (hlen : buf.length = 5) :
    (inst.temperature_and_humidity bus buf).events
        = [Event.busWrite [REG_TEMP], Event.sleepMs (127 / 2),
            Event.busRead
              [bus.respByte REG_TEMP 0 % 256, bus.respByte REG_TEMP 1 % 256,
                bus.respByte REG_TEMP 2 % 256,
                bus.respByte REG_TEMP 3 % 256]] ∧
      ((inst.temperature_and_humidity bus buf).events.countP
          (fun e => e.isBusWrite)) = 1 ∧
      (inst.temperature_and_humidity bus buf).result
        = Except.ok
            (convert_to_celsius
              (unpackBEInt16 (bus.respByte REG_TEMP 0 % 256)
                (bus.respByte REG_TEMP 1 % 256)),
              convert_to_relative_humidity
                (unpackBEInt16 (bus.respByte REG_TEMP 2 % 256)
                  (bus.respByte REG_TEMP 3 % 256))) := by
  rcases buf with _ | ⟨b0, _ | ⟨b1, _ | ⟨b2, _ | ⟨b3, _ | ⟨b4, rest⟩⟩⟩⟩⟩ <;>
    simp at hlen
  subst hlen
  refine ⟨?_, ?_, ?_⟩ <;>
    simp [HDC1080.temperature_and_humidity, read_from_registers, busBytes,
      writeInto, h, REG_TEMP, List.countP_cons, Event.isBusWrite,
      unpackBEInt16]

/-- Witness for C8: a combined-mode instance on the sample bus. -/
theorem combined_read_single_write_and_unpack_witness :
    ((HDC1080.mk 0x40 READ_BOTH_VALUES).temperature_and_humidity
        busCombinedSample zeroBuf).events
      = [Event.busWrite [REG_TEMP], Event.sleepMs (127 / 2),
          Event.busRead
            [busCombinedSample.respByte REG_TEMP 0 % 256,
              busCombinedSample.respByte REG_TEMP 1 % 256,
              busCombinedSample.respByte REG_TEMP 2 % 256,
              busCombinedSample.respByte REG_TEMP 3 % 256]] :=
  (combined_read_single_write_and_unpack ⟨0x40, READ_BOTH_VALUES⟩
    busCombinedSample zeroBuf (by decide) rfl).1

/-- Claim C10: each mode check is an exact equality test — the
single-value reads raise exactly when the stored mode is
`READ_BOTH_VALUES`, the combined read exactly when it is
`READ_SINGLE_VALUE` — so any mode outside `{0, 1}` passes all three
checks and reaches the bus; construction stores an arbitrary integer
mode and writes it to the operation-mode field. -/
theorem mode_checks_are_exact (inst : HDC1080) (bus : I2CBus)
    (buf : List Nat) (address : Nat) (mode : Int) :
    ((inst.temperature bus buf).result
          = Except.error DriverError.wrongMode
        ↔ inst.mode = READ_BOTH_VALUES) ∧
      ((inst.humidity bus buf).result
          = Except.error DriverError.wrongMode
        ↔ inst.mode = READ_BOTH_VALUES) ∧
      ((inst.temperature_and_humidity bus buf).result
          = Except.error DriverError.wrongMode
        ↔ inst.mode = READ_SINGLE_VALUE) ∧
      (inst.mode ≠ READ_SINGLE_VALUE → inst.mode ≠ READ_BOTH_VALUES →
        (inst.temperature bus buf).events ≠ [] ∧
          (inst.humidity bus buf).events ≠ [] ∧
          (inst.temperature_and_humidity bus buf).events ≠ []) ∧
      (deviceId bus = HDC1080_DEVICE_ID →
        (HDC1080.init bus buf address mode).result
            = Except.ok ⟨address, mode⟩ ∧
          Event.writeOperationMode mode
            ∈ (HDC1080.init bus buf address mode).events) := by
  refine ⟨?_, ?_, ?_, fun h0 h1 => ?_, fun hid => ?_⟩
  · by_cases h : inst.mode = READ_BOTH_VALUES <;>
      simp [HDC1080.temperature, h]
  · by_cases h : inst.mode = READ_BOTH_VALUES <;>
      simp [HDC1080.humidity, h]
  · by_cases h : inst.mode = READ_SINGLE_VALUE <;>
      simp [HDC1080.temperature_and_humidity, h]
  · refine ⟨?_, ?_, ?_⟩ <;>
      simp [HDC1080.temperature, HDC1080.humidity,
        HDC1080.temperature_and_humidity, read_from_register,
        read_from_registers, h0, h1]
  · simp [HDC1080.init, hid]

/-- Witness for C10: mode `2` (outside `{0, 1}`) reaches the bus in all
three reads, and construction stores and configures mode `2`. -/
theorem mode_checks_are_exact_witness :
    (((HDC1080.mk 0x40 2).temperature busGoodId zeroBuf).events ≠ [] ∧
      ((HDC1080.mk 0x40 2).humidity busGoodId zeroBuf).events ≠ [] ∧
      ((HDC1080.mk 0x40 2).temperature_and_humidity busGoodId
          zeroBuf).events ≠ []) ∧
      (HDC1080.init busGoodId zeroBuf 0x40 2).result
        = Except.ok ⟨0x40, 2⟩ ∧
      Event.writeOperationMode 2
        ∈ (HDC1080.init busGoodId zeroBuf 0x40 2).events :=
  ⟨(mode_checks_are_exact ⟨0x40, 2⟩ busGoodId zeroBuf 0x40 2).2.2.2.1
      (by decide) (by decide),
    (mode_checks_are_exact ⟨0x40, 2⟩ busGoodId zeroBuf 0x40 2).2.2.2.2
      (by decide)⟩

/-- Claim C2: the temperature conversion maps a raw value `r` to
`r / 65536 * 165 - 40`; in particular raw `0` gives `-40.0` and raw
`65535` gives approximately `125.0` (within `0.01`). -/
theorem convert_to_celsius_formula_and_endpoints :
    (∀ r : Int, convert_to_celsius r = (r : ℚ) / 65536 * 165 - 40) ∧
      convert_to_celsius 0 = -40 ∧
      125 - 1 / 100 < convert_to_celsius 65535 ∧
      convert_to_celsius 65535 < 125 := by
  refine ⟨fun r => by norm_num [convert_to_celsius], ?_, ?_, ?_⟩ <;>
    norm_num [convert_to_celsius]

/-- Claim C3: the humidity conversion maps a raw value `r` to
`r / 65536 * 100`; in particular raw `0` gives `0.0` and raw `65535`
gives approximately `100.0` (within `0.01`). -/
theorem convert_to_relative_humidity_formula_and_endpoints :
    (∀ r : Int, convert_to_relative_humidity r = (r : ℚ) / 65536 * 100) ∧
      convert_to_relative_humidity 0 = 0 ∧
      100 - 1 / 100 < convert_to_relative_humidity 65535 ∧
      convert_to_relative_humidity 65535 < 100 := by
  refine ⟨fun r => by norm_num [convert_to_relative_humidity], ?_, ?_, ?_⟩ <;>
    norm_num [convert_to_relative_humidity]

end AmuHdc1080
